import Mathlib

set_option linter.unusedVariables false

/-!
Verification of the homework-status polling bot (`homework.py`).

The embedding models the JSON-like values the bot manipulates, the Python
exceptions its functions raise, and the five operations of the program:
`check_tokens` is startup-only and out of the claims; `get_api_answer`,
`check_response`, `parse_status`, `send_message` and one iteration of the
`while True` body of `main` (here `try_body` / `cycle`) are embedded from
the source.  External effects (the HTTP GET, the Telegram send, the wall
clock) are passed in as explicit cycle inputs.
-/

set_option autoImplicit false

namespace HomeworkBot

/-- Values of the Python data model the bot touches: `None`, booleans,
integers, strings, lists and string-keyed dictionaries (the parsed JSON
of an API response). -/
inductive JValue where
  | jnull
  | jbool (b : Bool)
  | jint (n : Int)
  | jstr (s : String)
  | jlist (xs : List JValue)
  | jdict (kvs : List (String × JValue))
  deriving Repr

/-- Python exceptions raised by the program or by the libraries it calls.
`connectionError` is the builtin `ConnectionError`; `requestToApiError` is
the repository's own `RequestToApiError` (its class lives in the
`exceptions` module, a distinct `Exception` subclass per the import and
the raise sites); `apiException` is `telebot.apihelper.ApiException` and
`requestException` is `requests.RequestException`. -/
inductive PyError where
  | typeError (msg : String)
  | keyError (msg : String)
  | valueError (msg : String)
  | indexError (msg : String)
  | attributeError (msg : String)
  | connectionError (msg : String)
  | requestToApiError (msg : String)
  | apiException (msg : String)
  | requestException (msg : String)
  deriving Repr, DecidableEq

/-- A single-quote character, used by Python `repr` of strings. -/
def sq : String := String.singleton (Char.ofNat 39)

/-- Python type name of a value, as in `type(x).__name__`. -/
def pyTypeName : JValue → String
  | .jnull => "NoneType"
  | .jbool _ => "bool"
  | .jint _ => "int"
  | .jstr _ => "str"
  | .jlist _ => "list"
  | .jdict _ => "dict"

/-- Rendering of `type(x)` inside an f-string: `<class 'name'>`. -/
def typeRepr (v : JValue) : String :=
  "<class " ++ sq ++ pyTypeName v ++ sq ++ ">"

mutual

/-- Python `repr` of a value. -/
def pyRepr : JValue → String
  | .jnull => "None"
  | .jbool b => if b then "True" else "False"
  | .jint n => toString n
  | .jstr s => sq ++ s ++ sq
  | .jlist xs => "[" ++ pyReprList xs ++ "]"
  | .jdict kvs => "\x7b" ++ pyReprDict kvs ++ "\x7d"

/-- Comma-separated `repr`s of list elements. -/
def pyReprList : List JValue → String
  | [] => ""
  | [x] => pyRepr x
  | x :: y :: rest => pyRepr x ++ ", " ++ pyReprList (y :: rest)

/-- Comma-separated `repr`s of dictionary entries. -/
def pyReprDict : List (String × JValue) → String
  | [] => ""
  | [(k, v)] => sq ++ k ++ sq ++ ": " ++ pyRepr v
  | (k, v) :: e :: rest =>
      sq ++ k ++ sq ++ ": " ++ pyRepr v ++ ", " ++ pyReprDict (e :: rest)

end

/-- Python `str` of a value, as interpolated by an f-string. -/
def pyStr (v : JValue) : String :=
  match v with
  | .jstr s => s
  | _ => pyRepr v

/-- Python truthiness, as in `if response['homeworks']:`. -/
def pyTruthy : JValue → Bool
  | .jnull => false
  | .jbool b => b
  | .jint n => n != 0
  | .jstr s => s != ""
  | .jlist xs => !xs.isEmpty
  | .jdict kvs => !kvs.isEmpty

/-- First-match lookup in a string-keyed dictionary, Python `d.get(k)` /
`k in d`. -/
def dlookup : List (String × JValue) → String → Option JValue
  | [], _ => none
  | (k2, v) :: rest, k => if k2 = k then some v else dlookup rest k

/-- First-match lookup in a string-to-string dictionary (the verdict
table). -/
def dlookupS : List (String × String) → String → Option String
  | [], _ => none
  | (k2, v) :: rest, k => if k2 = k then some v else dlookupS rest k

/-- `RETRY_PERIOD = 600`, the fixed sleep between cycles. -/
def RETRY_PERIOD : Nat := 600

/-- The fixed API endpoint URL. -/
def ENDPOINT : String :=
  "https://practicum.yandex.ru/api/user_api/homework_statuses/"

/-- `HOMEWORK_VERDICTS`: the fixed verdict table of the source. -/
def HOMEWORK_VERDICTS : List (String × String) :=
  [("approved", "Работа проверена: ревьюеру всё понравилось. Ура!"),
   ("reviewing", "Работа взята на проверку ревьюером."),
   ("rejected", "Работа проверена: у ревьюера есть замечания.")]

/-- Python `str` of the query-parameter dictionary
`{'from_date': timestamp}` as interpolated into log and error texts. -/
def params_str (timestamp : JValue) : String :=
  "\x7b" ++ sq ++ "from_date" ++ sq ++ ": " ++ pyRepr timestamp ++ "\x7d"

/-- Outcome of the one HTTP GET a cycle performs: either the transport
raises `requests.RequestException`, or a response with a status code, a
reason phrase and a parsed JSON body comes back. -/
inductive HttpOutcome where
  | transportError
  | response (status : Nat) (reason : String) (body : JValue)
  deriving Repr

/-- Embedding of `get_api_answer(timestamp)`: on a transport failure the
caught `requests.RequestException` is re-raised as a builtin
`ConnectionError` naming the endpoint and parameters; on a status other
than `HTTPStatus.OK` a `RequestToApiError` carrying the reason phrase and
the status code is raised; on status 200 the parsed body is returned. -/
def get_api_answer (timestamp : JValue) (http : HttpOutcome) :
    Except PyError JValue :=
  match http with
  | .transportError =>
      .error (.connectionError
        ("Ошибка отправки запроса к эндпоинту " ++ ENDPOINT
          ++ ". Параметры запроса: " ++ params_str timestamp ++ "."))
  | .response status reason body =>
      if status ≠ 200 then
        .error (.requestToApiError
          ("Ошибка запроса к эндпоинту " ++ ENDPOINT
            ++ ". Причина: " ++ reason
            ++ ". Код ответа API: " ++ toString status ++ "."))
      else
        .ok body

/-- Embedding of `check_response(response)`: a `TypeError` unless the
response is a dict, a `KeyError` if the key `homeworks` is absent, a
`TypeError` if its value is not a list; otherwise passes.  No check on
`current_date` appears in the source. -/
def check_response (response : JValue) : Except PyError Unit :=
  match response with
  | .jdict kvs =>
      match dlookup kvs "homeworks" with
      | none =>
          .error (.keyError
            "В ответе API отсутствует ожидаемый ключ \"homeworks\".")
      | some hw =>
          match hw with
          | .jlist _ => .ok ()
          | _ =>
              .error (.typeError
                ("Ошибка типа полученных данных под ключом \"homeworks\". "
                  ++ "Полученный тип данных: " ++ typeRepr hw ++ ". "
                  ++ "Ожидаемый тип данных: list."))
  | _ =>
      .error (.typeError
        ("Ошибка типа возвращаемых данных. "
          ++ "Полученный тип данных: " ++ typeRepr response ++ ". "
          ++ "Ожидаемый тип данных: dict. "))

/-- Membership test of a value among the verdict-table keys, as in
`homework_status not in HOMEWORK_VERDICTS`: dict membership hashes the
operand, so an unhashable value (a list or a dict) raises `TypeError`;
a hashable non-string (`None`, a bool, an int) is simply not a key; a
string is looked up. -/
def verdict_of (v : JValue) : Except PyError (Option String) :=
  match v with
  | .jstr s => .ok (dlookupS HOMEWORK_VERDICTS s)
  | .jlist _ => .error (.typeError ("unhashable type: " ++ sq ++ "list" ++ sq))
  | .jdict _ => .error (.typeError ("unhashable type: " ++ sq ++ "dict" ++ sq))
  | _ => .ok none

/-- Embedding of `parse_status(homework)`: `.get` on a non-dict raises
`AttributeError`; a missing `homework_name` key raises `KeyError` (an
empty name passes); a missing `status` key raises `KeyError`; the
membership test on the verdict table raises `TypeError` for an
unhashable status and `ValueError` for a hashable status that is not a
key; otherwise the notification string is returned. -/
def parse_status (homework : JValue) : Except PyError String :=
  match homework with
  | .jdict kvs =>
      match dlookup kvs "homework_name" with
      | none => .error (.keyError "В ответе API нет ключа \"homework_name\".")
      | some homework_name =>
          match dlookup kvs "status" with
          | none => .error (.keyError "В ответе API нет ключа \"status\".")
          | some homework_status =>
              match verdict_of homework_status with
              | .error e => .error e
              | .ok none =>
                  .error (.valueError
                    ("В ответе API неожиданный статус домашней работы: "
                      ++ pyStr homework_status ++ "."))
              | .ok (some verdict) =>
                  .ok ("Изменился статус проверки работы \""
                    ++ pyStr homework_name ++ "\". " ++ verdict)
  | _ =>
      .error (.attributeError
        (sq ++ pyTypeName homework ++ sq
          ++ " object has no attribute " ++ sq ++ "get" ++ sq))

/-- Outcome of one `bot.send_message` call: success, or one of the two
exception classes the Telegram client and its transport raise
(`telebot.apihelper.ApiException`, `requests.RequestException`). -/
inductive SendOutcome where
  | success
  | apiException (msg : String)
  | requestException (msg : String)
  deriving Repr

/-- The black-box `bot.send_message(chat_id, text)` call: raises exactly
when its outcome is one of the two failure modes. -/
def bot_send (outcome : SendOutcome) : Except PyError Unit :=
  match outcome with
  | .success => .ok ()
  | .apiException m => .error (.apiException m)
  | .requestException m => .error (.requestException m)

/-- Embedding of `send_message(bot, message)`: the call is wrapped in
`try/except (apihelper.ApiException, requests.RequestException)`; a caught
exception is logged and swallowed, any other exception would propagate. -/
def send_message (message : String) (outcome : SendOutcome) :
    Except PyError Unit :=
  match bot_send outcome with
  | .ok _ => .ok ()
  | .error (.apiException _) => .ok ()
  | .error (.requestException _) => .ok ()
  | .error e => .error e

/-- Python `str(error)` as interpolated by `f'{error}'` in `main`: the
exception message for every class but `KeyError`, whose `str` is the
`repr` of its argument (the message wrapped in single quotes). -/
def errStr : PyError → String
  | .typeError m => m
  | .keyError m => sq ++ m ++ sq
  | .valueError m => m
  | .indexError m => m
  | .attributeError m => m
  | .connectionError m => m
  | .requestToApiError m => m
  | .apiException m => m
  | .requestException m => m

/-- The user-facing text `main` builds for a cycle-level error:
`f'Сбой в работе программы: {error}'`. -/
def failMessage (e : PyError) : String :=
  "Сбой в работе программы: " ++ errStr e

/-- Python subscript `response[k]` on a value with a string key. -/
def dict_getitem (v : JValue) (k : String) : Except PyError JValue :=
  match v with
  | .jdict kvs =>
      match dlookup kvs k with
      | some x => .ok x
      | none => .error (.keyError k)
  | _ =>
      .error (.typeError
        (sq ++ pyTypeName v ++ sq ++ " object is not subscriptable"))

/-- Python subscript `xs[i]` on a value with a non-negative index. -/
def list_getindex (v : JValue) (i : Nat) : Except PyError JValue :=
  match v with
  | .jlist xs =>
      match xs.get? i with
      | some x => .ok x
      | none => .error (.indexError "list index out of range")
  | _ =>
      .error (.typeError
        (sq ++ pyTypeName v ++ sq ++ " object is not subscriptable"))

/-- Python `response.get(k, default)`: total on dicts, `AttributeError`
on anything else. -/
def dict_get (v : JValue) (k : String) (dflt : JValue) :
    Except PyError JValue :=
  match v with
  | .jdict kvs => .ok ((dlookup kvs k).getD dflt)
  | _ =>
      .error (.attributeError
        (sq ++ pyTypeName v ++ sq
          ++ " object has no attribute " ++ sq ++ "get" ++ sq))

/-- The mutable state the `while True` loop of `main` owns: `timestamp`
(a `JValue`, since line 183 assigns whatever `response.get` returns) and
`current_error_message`. -/
structure LoopState where
  timestamp : JValue
  current_error_message : String
  deriving Repr

/-- The `try:` block of one iteration of `main`'s loop (lines 172-183):
fetch, validate, and — when `homeworks` is truthy — parse the FIRST
record, send its message and clear the error marker; in either branch
assign `timestamp = response.get('current_date', int(time.time()))`.
Returns the post-state and the list of messages passed to
`send_message`.  `now` is `int(time.time())` at line 183; `sendOut` is
the outcome of the (at most one) Telegram send of the block, which
`send_message` absorbs. -/
def try_body (now : Int) (http : HttpOutcome) (sendOut : SendOutcome)
    (s : LoopState) : Except PyError (LoopState × List String) := do
  let response ← get_api_answer s.timestamp http
  let _ ← check_response response
  let hws ← dict_getitem response "homeworks"
  if pyTruthy hws then
    let first ← list_getindex hws 0
    let message ← parse_status first
    let _ ← send_message message sendOut
    let ts ← dict_get response "current_date" (.jint now)
    pure (⟨ts, ""⟩, [message])
  else
    let ts ← dict_get response "current_date" (.jint now)
    pure (⟨ts, s.current_error_message⟩, [])

/-- One full iteration of `main`'s loop: the `try:` block, and on any
exception the `except Exception` handler (lines 184-189), which formats
the message, sends it only when it differs from the last-error marker,
and sets the marker to the message; the `finally: time.sleep` has no
state effect.  Returns the post-state and the messages passed to
`send_message` during the iteration. -/
def cycle (now : Int) (http : HttpOutcome) (sendOut : SendOutcome)
    (s : LoopState) : LoopState × List String :=
  match try_body now http sendOut s with
  | .ok r => r
  | .error e =>
      (⟨s.timestamp, failMessage e⟩,
       if s.current_error_message ≠ failMessage e then [failMessage e] else [])

/-- Whether a `parse_status` result is a success; `false` means the record
was rejected with some exception. -/
def isOkResult (r : Except PyError String) : Bool :=
  match r with
  | .ok _ => true
  | .error _ => false

/-- Symbolic evaluation of the `try:` block on a 200 response carrying a
dict body: the block's result is determined by the `homeworks` lookup,
the parse of the FIRST record, and the `current_date` lookup. -/
theorem try_body_200_dict (now : Int) (reason : String) (sendOut : SendOutcome)
    (s : LoopState) (kvs : List (String × JValue)) :
    try_body now (.response 200 reason (.jdict kvs)) sendOut s =
      match dlookup kvs "homeworks" with
      | none => .error (.keyError
          "В ответе API отсутствует ожидаемый ключ \"homeworks\".")
      | some (.jlist []) =>
          .ok (⟨(dlookup kvs "current_date").getD (.jint now),
                s.current_error_message⟩, [])
      | some (.jlist (hw :: _)) =>
          match parse_status hw with
          | .ok m =>
              .ok (⟨(dlookup kvs "current_date").getD (.jint now), ""⟩, [m])
          | .error e => .error e
      | some hw => .error (.typeError
          ("Ошибка типа полученных данных под ключом \"homeworks\". "
            ++ "Полученный тип данных: " ++ typeRepr hw ++ ". "
            ++ "Ожидаемый тип данных: list.")) := by
  cases hlook : dlookup kvs "homeworks" with
  | none =>
      simp [try_body, get_api_answer, check_response, hlook,
        Bind.bind, Except.bind]
  | some hw =>
      cases hw with
      | jlist xs =>
          cases xs with
          | nil =>
              simp [try_body, get_api_answer, check_response, hlook,
                dict_getitem, pyTruthy, dict_get, Bind.bind, Except.bind,
                Functor.map, Except.map, Pure.pure, Except.pure]
          | cons h t =>
              cases hp : parse_status h with
              | ok m =>
                  cases sendOut <;>
                  simp [try_body, get_api_answer, check_response, hlook,
                    dict_getitem, pyTruthy, list_getindex, hp, dict_get,
                    send_message, bot_send, Bind.bind, Except.bind,
                    Functor.map, Except.map, Pure.pure, Except.pure]
              | error e =>
                  simp [try_body, get_api_answer, check_response, hlook,
                    dict_getitem, pyTruthy, list_getindex, hp,
                    Bind.bind, Except.bind, Functor.map, Except.map]
      | jnull =>
          simp [try_body, get_api_answer, check_response, hlook,
            Bind.bind, Except.bind]
      | jbool b =>
          simp [try_body, get_api_answer, check_response, hlook,
            Bind.bind, Except.bind]
      | jint n =>
          simp [try_body, get_api_answer, check_response, hlook,
            Bind.bind, Except.bind]
      | jstr s2 =>
          simp [try_body, get_api_answer, check_response, hlook,
            Bind.bind, Except.bind]
      | jdict kvs2 =>
          simp [try_body, get_api_answer, check_response, hlook,
            Bind.bind, Except.bind]

/-- C9: the notifier never raises to its caller — for every outcome of
the underlying Telegram send (success, `ApiException`,
`RequestException`) `send_message` returns normally, so a failed
notification never aborts the poll loop. -/
theorem send_message_never_raises (message : String) (outcome : SendOutcome) :
    send_message message outcome = .ok () := by
  cases outcome <;> rfl

/-- C7: on a record whose `homework_name` is a non-empty string and whose
`status` is a verdict-table key, `parse_status` returns exactly
`Изменился статус проверки работы "<name>". <verdict-text>` with the
table's entry for that status. -/
theorem parse_status_success_format (kvs : List (String × JValue))
    (name st verdict : String)
    (hn : dlookup kvs "homework_name" = some (.jstr name))
    (hne : name ≠ "")
    (hs : dlookup kvs "status" = some (.jstr st))
    (hv : dlookupS HOMEWORK_VERDICTS st = some verdict) :
    parse_status (.jdict kvs) =
      .ok ("Изменился статус проверки работы \"" ++ name ++ "\". "
        ++ verdict) := by
  simp [parse_status, hn, hs, verdict_of, hv, pyStr]

/-- Witness for C7 at a concrete record. -/
theorem parse_status_success_format_witness :
    parse_status (.jdict [("homework_name", .jstr "hw1"),
        ("status", .jstr "approved")]) =
      .ok ("Изменился статус проверки работы \"" ++ "hw1" ++ "\". "
        ++ "Работа проверена: ревьюеру всё понравилось. Ура!") :=
  parse_status_success_format _ "hw1" "approved" _ rfl (by decide) rfl rfl

/-- C6 counterexample: a record whose `homework_name` is the EMPTY string
is accepted by `parse_status` (the source only tests key presence), while
the claim demands a missing-key failure for an empty name. -/
theorem parse_status_empty_name_accepted :
    parse_status (.jdict [("homework_name", .jstr ""),
        ("status", .jstr "approved")]) =
      .ok ("Изменился статус проверки работы \"" ++ "" ++ "\". "
        ++ "Работа проверена: ревьюеру всё понравилось. Ура!") := rfl

/-- C6 (amended): on a dict record, `parse_status` raises `KeyError` when
`homework_name` is absent (an empty name is accepted), `KeyError` — not
`ValueError` — when `status` is absent, `TypeError` when the status is an
unhashable value (a list or a dict, which the membership test at the
verdict table cannot hash), `ValueError` when the status is present and
hashable but not a verdict-table key, and succeeds otherwise. -/
theorem parse_status_characterization (kvs : List (String × JValue)) :
    (dlookup kvs "homework_name" = none →
      parse_status (.jdict kvs) =
        .error (.keyError "В ответе API нет ключа \"homework_name\".")) ∧
    (∀ nv, dlookup kvs "homework_name" = some nv →
      dlookup kvs "status" = none →
      parse_status (.jdict kvs) =
        .error (.keyError "В ответе API нет ключа \"status\".")) ∧
    (∀ nv sv e, dlookup kvs "homework_name" = some nv →
      dlookup kvs "status" = some sv → verdict_of sv = .error e →
      parse_status (.jdict kvs) = .error e) ∧
    (∀ nv sv, dlookup kvs "homework_name" = some nv →
      dlookup kvs "status" = some sv → verdict_of sv = .ok none →
      parse_status (.jdict kvs) =
        .error (.valueError
          ("В ответе API неожиданный статус домашней работы: "
            ++ pyStr sv ++ "."))) ∧
    (∀ nv sv verdict, dlookup kvs "homework_name" = some nv →
      dlookup kvs "status" = some sv → verdict_of sv = .ok (some verdict) →
      parse_status (.jdict kvs) =
        .ok ("Изменился статус проверки работы \"" ++ pyStr nv ++ "\". "
          ++ verdict)) := by
  refine ⟨?_, ?_, ?_, ?_, ?_⟩ <;> intros <;> simp_all [parse_status]

/-- Witness for C6 exercising all five branches at concrete records. -/
theorem parse_status_characterization_witness :
    parse_status (.jdict []) =
      .error (.keyError "В ответе API нет ключа \"homework_name\".") ∧
    parse_status (.jdict [("homework_name", .jstr "x")]) =
      .error (.keyError "В ответе API нет ключа \"status\".") ∧
    parse_status (.jdict [("homework_name", .jstr "x"),
        ("status", .jlist [.jstr "a"])]) =
      .error (.typeError ("unhashable type: " ++ sq ++ "list" ++ sq)) ∧
    parse_status (.jdict [("homework_name", .jstr "x"),
        ("status", .jint 5)]) =
      .error (.valueError
        ("В ответе API неожиданный статус домашней работы: "
          ++ pyStr (.jint 5) ++ ".")) ∧
    parse_status (.jdict [("homework_name", .jstr "x"),
        ("status", .jstr "reviewing")]) =
      .ok ("Изменился статус проверки работы \"" ++ pyStr (.jstr "x")
        ++ "\". " ++ "Работа взята на проверку ревьюером.") :=
  ⟨(parse_status_characterization _).1 rfl,
   (parse_status_characterization _).2.1 _ rfl rfl,
   (parse_status_characterization _).2.2.1 _ _ _ rfl rfl rfl,
   (parse_status_characterization _).2.2.2.1 _ _ rfl rfl rfl,
   (parse_status_characterization _).2.2.2.2 _ _ _ rfl rfl rfl⟩

/-- C10: the verdict table holds exactly the three statuses `approved`,
`reviewing`, `rejected` with their texts, and every record whose status
string is outside this set is rejected by `parse_status`. -/
theorem verdict_table_closed (kvs : List (String × JValue)) (st : String)
    (hs : dlookup kvs "status" = some (.jstr st))
    (h1 : st ≠ "approved") (h2 : st ≠ "reviewing") (h3 : st ≠ "rejected") :
    HOMEWORK_VERDICTS =
      [("approved", "Работа проверена: ревьюеру всё понравилось. Ура!"),
       ("reviewing", "Работа взята на проверку ревьюером."),
       ("rejected", "Работа проверена: у ревьюера есть замечания.")] ∧
    isOkResult (parse_status (.jdict kvs)) = false := by
  refine ⟨rfl, ?_⟩
  have hv : verdict_of (.jstr st) = .ok none := by
    simp [verdict_of, HOMEWORK_VERDICTS, dlookupS,
      Ne.symm h1, Ne.symm h2, Ne.symm h3]
  cases hname : dlookup kvs "homework_name" with
  | none => simp [parse_status, hname, isOkResult]
  | some nv => simp [parse_status, hname, hs, hv, isOkResult]

/-- Witness for C10 at a concrete unknown status. -/
theorem verdict_table_closed_witness :
    HOMEWORK_VERDICTS =
      [("approved", "Работа проверена: ревьюеру всё понравилось. Ура!"),
       ("reviewing", "Работа взята на проверку ревьюером."),
       ("rejected", "Работа проверена: у ревьюера есть замечания.")] ∧
    isOkResult (parse_status (.jdict [("homework_name", .jstr "hw"),
        ("status", .jstr "done")])) = false :=
  verdict_table_closed _ "done" rfl (by decide) (by decide) (by decide)

/-- C8 counterexample: a transport failure raises the builtin
`ConnectionError` while a 404 response raises the repository's
`RequestToApiError` — two distinct error kinds, where the claim says both
failures are of the same `RequestError` kind. -/
theorem request_error_kinds_distinct :
    get_api_answer (.jint 0) .transportError =
      .error (.connectionError
        ("Ошибка отправки запроса к эндпоинту " ++ ENDPOINT
          ++ ". Параметры запроса: " ++ params_str (.jint 0) ++ ".")) ∧
    get_api_answer (.jint 0) (.response 404 "Not Found" .jnull) =
      .error (.requestToApiError
        ("Ошибка запроса к эндпоинту " ++ ENDPOINT
          ++ ". Причина: Not Found. Код ответа API: 404.")) ∧
    PyError.connectionError
        ("Ошибка отправки запроса к эндпоинту " ++ ENDPOINT
          ++ ". Параметры запроса: " ++ params_str (.jint 0) ++ ".") ≠
      PyError.requestToApiError
        ("Ошибка запроса к эндпоинту " ++ ENDPOINT
          ++ ". Причина: Not Found. Код ответа API: 404.") :=
  ⟨rfl, rfl, by simp⟩

/-- C8 (amended): a transport-level failure raises `ConnectionError`
naming the endpoint and parameters, while a response with any status
other than 200 raises the distinct `RequestToApiError` carrying the HTTP
status code and reason phrase; a 404 goes through the same non-200 branch
as every other non-200 status. -/
theorem get_api_answer_error_kinds (timestamp : JValue) :
    (get_api_answer timestamp .transportError =
      .error (.connectionError
        ("Ошибка отправки запроса к эндпоинту " ++ ENDPOINT
          ++ ". Параметры запроса: " ++ params_str timestamp ++ "."))) ∧
    (∀ status reason body, status ≠ 200 →
      get_api_answer timestamp (.response status reason body) =
        .error (.requestToApiError
          ("Ошибка запроса к эндпоинту " ++ ENDPOINT
            ++ ". Причина: " ++ reason
            ++ ". Код ответа API: " ++ toString status ++ "."))) := by
  refine ⟨rfl, ?_⟩
  intro status reason body h
  simp [get_api_answer, h]

/-- Witness for C8 at a concrete 404 response. -/
theorem get_api_answer_error_kinds_witness :
    get_api_answer (.jint 10) (.response 404 "Not Found" .jnull) =
      .error (.requestToApiError
        ("Ошибка запроса к эндпоинту " ++ ENDPOINT
          ++ ". Причина: " ++ "Not Found"
          ++ ". Код ответа API: " ++ toString 404 ++ ".")) :=
  (get_api_answer_error_kinds (.jint 10)).2 404 "Not Found" .jnull (by decide)

/-- C4: when the `try:` block of a cycle raises an error `e`, the cycle
sets the last-error marker to the formatted message and notifies exactly
when the message differs from the previous marker — so along a
consecutive-failure streak each distinct error text is notified at most
once, and a newly different error text always notifies. -/
theorem cycle_error_dedup (now : Int) (http : HttpOutcome)
    (sendOut : SendOutcome) (s : LoopState) (e : PyError)
    (he : try_body now http sendOut s = .error e) :
    (cycle now http sendOut s).1.current_error_message = failMessage e ∧
    (cycle now http sendOut s).2 =
      (if s.current_error_message = failMessage e
        then [] else [failMessage e]) := by
  have hc : cycle now http sendOut s =
      (⟨s.timestamp, failMessage e⟩,
       if s.current_error_message ≠ failMessage e
         then [failMessage e] else []) := by
    simp [cycle, he]
  rw [hc]
  refine ⟨rfl, ?_⟩
  by_cases h : s.current_error_message = failMessage e
  · simp [h]
  · simp [h]

/-- Witness for C4: two consecutive failing cycles on the same 404 error;
the first (empty marker) notifies, the second (marker already equal to
the message) does not, and both leave the marker equal to the message. -/
theorem cycle_error_dedup_witness :
    ((cycle 0 (.response 404 "Not Found" .jnull) .success
        ⟨.jint 7, ""⟩).1.current_error_message =
      failMessage (.requestToApiError
        ("Ошибка запроса к эндпоинту " ++ ENDPOINT
          ++ ". Причина: Not Found. Код ответа API: 404.")) ∧
     (cycle 0 (.response 404 "Not Found" .jnull) .success
        ⟨.jint 7, ""⟩).2 =
      (if ("" : String) = failMessage (.requestToApiError
          ("Ошибка запроса к эндпоинту " ++ ENDPOINT
            ++ ". Причина: Not Found. Код ответа API: 404."))
        then [] else [failMessage (.requestToApiError
          ("Ошибка запроса к эндпоинту " ++ ENDPOINT
            ++ ". Причина: Not Found. Код ответа API: 404."))])) ∧
    ((cycle 0 (.response 404 "Not Found" .jnull) .success
        ⟨.jint 7, failMessage (.requestToApiError
          ("Ошибка запроса к эндпоинту " ++ ENDPOINT
            ++ ". Причина: Not Found. Код ответа API: 404."))⟩).2 =
      (if failMessage (.requestToApiError
          ("Ошибка запроса к эндпоинту " ++ ENDPOINT
            ++ ". Причина: Not Found. Код ответа API: 404.")) =
          failMessage (.requestToApiError
          ("Ошибка запроса к эндпоинту " ++ ENDPOINT
            ++ ". Причина: Not Found. Код ответа API: 404."))
        then [] else [failMessage (.requestToApiError
          ("Ошибка запроса к эндпоинту " ++ ENDPOINT
            ++ ". Причина: Not Found. Код ответа API: 404."))])) :=
  ⟨⟨(cycle_error_dedup 0 (.response 404 "Not Found" .jnull) .success
      ⟨.jint 7, ""⟩ _ rfl).1,
    (cycle_error_dedup 0 (.response 404 "Not Found" .jnull) .success
      ⟨.jint 7, ""⟩ _ rfl).2⟩,
   (cycle_error_dedup 0 (.response 404 "Not Found" .jnull) .success
      ⟨.jint 7, failMessage (.requestToApiError
        ("Ошибка запроса к эндпоинту " ++ ENDPOINT
          ++ ". Причина: Not Found. Код ответа API: 404."))⟩ _ rfl).2⟩

/-- C1 counterexample: a 200 response whose dict lacks `current_date`
passes `check_response` (only `homeworks` is checked), and the cycle's
cursor is reassigned to the wall-clock value rather than kept. -/
theorem check_response_missing_current_date_ok :
    check_response (.jdict [("homeworks", .jlist [])]) = .ok () ∧
    (cycle 200 (.response 200 "OK" (.jdict [("homeworks", .jlist [])]))
      .success ⟨.jint 100, ""⟩).1.timestamp = .jint 200 ∧
    (JValue.jint 200) ≠ (JValue.jint 100) :=
  ⟨rfl, rfl, by simp⟩

/-- C1 (amended): `check_response` does not require `current_date`: it
passes on any dict whose `homeworks` value is a list; on a cycle that
completes without error and whose response lacks `current_date`, the
cursor is set to the wall-clock `int(time.time())` fallback, so it does
change rather than fail. -/
theorem check_response_ignores_current_date (kvs : List (String × JValue))
    (xs : List JValue)
    (hhw : dlookup kvs "homeworks" = some (.jlist xs))
    (hnd : dlookup kvs "current_date" = none)
    (now : Int) (reason : String) (sendOut : SendOutcome) (s : LoopState)
    (r : LoopState × List String)
    (hok : try_body now (.response 200 reason (.jdict kvs)) sendOut s
      = .ok r) :
    check_response (.jdict kvs) = .ok () ∧
    (cycle now (.response 200 reason (.jdict kvs)) sendOut s).1.timestamp =
      .jint now := by
  refine ⟨by simp [check_response, hhw], ?_⟩
  rw [try_body_200_dict, hhw] at hok
  cases xs with
  | nil => simp [cycle, try_body_200_dict, hhw, hnd]
  | cons h t =>
      cases hp : parse_status h with
      | ok m => simp [cycle, try_body_200_dict, hhw, hp, hnd]
      | error e => simp [hp] at hok

/-- Witness for C1 at a concrete response without `current_date`. -/
theorem check_response_ignores_current_date_witness :
    check_response (.jdict [("homeworks", .jlist [])]) = .ok () ∧
    (cycle 17 (.response 200 "OK" (.jdict [("homeworks", .jlist [])]))
      .success ⟨.jint 3, ""⟩).1.timestamp = .jint 17 :=
  check_response_ignores_current_date [("homeworks", .jlist [])] [] rfl rfl
    17 "OK" .success ⟨.jint 3, ""⟩ _ rfl

/-- C2 counterexample: with two valid records in `homeworks` the cycle
produces one single notification — the first record's — although the
second record also parses; the claim demands a notification per record. -/
theorem cycle_two_homeworks_one_notification :
    parse_status (.jdict [("homework_name", .jstr "hw2"),
        ("status", .jstr "rejected")]) =
      .ok ("Изменился статус проверки работы \"" ++ "hw2" ++ "\". "
        ++ "Работа проверена: у ревьюера есть замечания.") ∧
    (cycle 1 (.response 200 "OK" (.jdict
        [("homeworks", .jlist
          [.jdict [("homework_name", .jstr "hw1"),
            ("status", .jstr "approved")],
           .jdict [("homework_name", .jstr "hw2"),
            ("status", .jstr "rejected")]]),
         ("current_date", .jint 7)])) .success ⟨.jint 0, ""⟩).2 =
      ["Изменился статус проверки работы \"hw1\". Работа проверена: ревьюеру всё понравилось. Ура!"] ∧
    ("Изменился статус проверки работы \"hw2\". Работа проверена: у ревьюера есть замечания.")
      ∉ ["Изменился статус проверки работы \"hw1\". Работа проверена: ревьюеру всё понравилось. Ура!"] :=
  ⟨rfl, rfl, by decide⟩

/-- C2 (amended): on a validating cycle whose `homeworks` list is
non-empty, only the FIRST record is parsed and notified: whenever the
first record parses to `m`, the cycle's notifications are exactly `[m]`,
whatever the remaining records hold. -/
theorem cycle_notifies_only_first (now : Int) (reason : String)
    (sendOut : SendOutcome) (s : LoopState) (kvs : List (String × JValue))
    (hw : JValue) (rest : List JValue) (m : String)
    (hhw : dlookup kvs "homeworks" = some (.jlist (hw :: rest)))
    (hp : parse_status hw = .ok m) :
    (cycle now (.response 200 reason (.jdict kvs)) sendOut s).2 = [m] := by
  simp [cycle, try_body_200_dict, hhw, hp]

/-- Witness for C2 at a concrete two-record response. -/
theorem cycle_notifies_only_first_witness :
    (cycle 1 (.response 200 "OK" (.jdict
        [("homeworks", .jlist
          [.jdict [("homework_name", .jstr "hwA"),
            ("status", .jstr "reviewing")],
           .jdict [("homework_name", .jstr "hwB"),
            ("status", .jstr "approved")]]),
         ("current_date", .jint 7)])) .success ⟨.jint 0, ""⟩).2 =
      ["Изменился статус проверки работы \"hwA\". Работа взята на проверку ревьюером."] :=
  cycle_notifies_only_first 1 "OK" .success ⟨.jint 0, ""⟩ _ _ _ _ rfl rfl

/-- C3 counterexample: a cycle that completes without error but with an
EMPTY `homeworks` list leaves the last-error marker untouched (`boom`),
not reset to the empty string as the claim states. -/
theorem marker_not_reset_on_empty :
    cycle 5 (.response 200 "OK" (.jdict [("homeworks", .jlist []),
        ("current_date", .jint 9)])) .success ⟨.jint 1, "boom"⟩ =
      (⟨.jint 9, "boom"⟩, []) ∧ ("boom" : String) ≠ "" :=
  ⟨rfl, by decide⟩

/-- C3 (amended): the last-error marker is cleared only on an error-free
cycle whose `homeworks` list is non-empty (the clear sits inside that
branch); an error-free cycle with an empty list leaves the marker as it
was. -/
theorem marker_reset_policy (now : Int) (reason : String)
    (sendOut : SendOutcome) (s : LoopState) (kvs : List (String × JValue)) :
    (∀ hw rest m, dlookup kvs "homeworks" = some (.jlist (hw :: rest)) →
      parse_status hw = .ok m →
      (cycle now (.response 200 reason (.jdict kvs)) sendOut
        s).1.current_error_message = "") ∧
    (dlookup kvs "homeworks" = some (.jlist []) →
      (cycle now (.response 200 reason (.jdict kvs)) sendOut
        s).1.current_error_message = s.current_error_message) := by
  constructor
  · intro hw rest m hhw hp
    simp [cycle, try_body_200_dict, hhw, hp]
  · intro hhw
    simp [cycle, try_body_200_dict, hhw]

/-- Witness for C3: a one-record cycle clears the marker `old`; an
empty-list cycle keeps it. -/
theorem marker_reset_policy_witness :
    (cycle 3 (.response 200 "OK" (.jdict [("homeworks", .jlist
        [.jdict [("homework_name", .jstr "a"), ("status", .jstr "approved")]]),
        ("current_date", .jint 4)])) .success
      ⟨.jint 0, "old"⟩).1.current_error_message = "" ∧
    (cycle 3 (.response 200 "OK" (.jdict [("homeworks", .jlist []),
        ("current_date", .jint 4)])) .success
      ⟨.jint 0, "old"⟩).1.current_error_message = "old" :=
  ⟨(marker_reset_policy 3 "OK" .success ⟨.jint 0, "old"⟩ _).1 _ [] _ rfl rfl,
   (marker_reset_policy 3 "OK" .success ⟨.jint 0, "old"⟩ _).2 rfl⟩

/-- C5 counterexample: a cycle whose response validates but carries no
`current_date` sets the cursor to the wall-clock value 777 — the claim
says the cursor is never set to local wall-clock time. -/
theorem cursor_wall_clock_fallback :
    (cycle 777 (.response 200 "OK" (.jdict [("homeworks", .jlist
        [.jdict [("homework_name", .jstr "h"),
          ("status", .jstr "approved")]])]))
      .success ⟨.jint 42, ""⟩).1.timestamp = .jint 777 ∧
    (JValue.jint 777) ≠ (JValue.jint 42) :=
  ⟨rfl, by simp⟩

/-- C5 (amended): on any cycle whose `try:` block raises, the cursor is
left unchanged; on a cycle whose response validates, the cursor is set to
the response's `current_date` value when present and to the wall-clock
`int(time.time())` fallback when absent. -/
theorem cursor_advance_policy (now : Int) (sendOut : SendOutcome)
    (s : LoopState) :
    (∀ http e, try_body now http sendOut s = .error e →
      (cycle now http sendOut s).1.timestamp = s.timestamp) ∧
    (∀ reason kvs r,
      try_body now (.response 200 reason (.jdict kvs)) sendOut s = .ok r →
      (cycle now (.response 200 reason (.jdict kvs)) sendOut
        s).1.timestamp = (dlookup kvs "current_date").getD (.jint now)) := by
  constructor
  · intro http e he
    unfold cycle
    rw [he]
  · intro reason kvs r hok
    rw [try_body_200_dict] at hok
    cases hlook : dlookup kvs "homeworks" with
    | none => simp [hlook] at hok
    | some v =>
        rw [hlook] at hok
        cases v with
        | jlist xs =>
            cases xs with
            | nil => simp [cycle, try_body_200_dict, hlook]
            | cons h t =>
                cases hp : parse_status h with
                | ok m => simp [cycle, try_body_200_dict, hlook, hp]
                | error e => simp [hp] at hok
        | jnull => simp at hok
        | jbool b => simp at hok
        | jint n => simp at hok
        | jstr s2 => simp at hok
        | jdict k2 => simp at hok

/-- Witness for C5: a transport-failure cycle keeps the cursor; a
validating cycle with `current_date` present takes that value. -/
theorem cursor_advance_policy_witness :
    (cycle 100 .transportError .success ⟨.jint 5, ""⟩).1.timestamp =
      .jint 5 ∧
    (cycle 100 (.response 200 "OK" (.jdict [("homeworks", .jlist []),
        ("current_date", .jint 9)])) .success ⟨.jint 5, ""⟩).1.timestamp =
      (dlookup [("homeworks", .jlist []), ("current_date", .jint 9)]
        "current_date").getD (.jint 100) :=
  ⟨(cursor_advance_policy 100 .success ⟨.jint 5, ""⟩).1 .transportError
      _ rfl,
   (cursor_advance_policy 100 .success ⟨.jint 5, ""⟩).2 "OK" _ _ rfl⟩

end HomeworkBot
